import Mathlib

/-
Shallow embedding of `src/ascn-aws-agent.py`, a thin AWS agent script:
a credential bootstrap, five tool functions wrapping single provider
calls (boto3 or the `aws` CLI binary), and a query harness that sends
each query to a language model and then keyword-dispatches at most one
tool.

Modelling conventions:
* A call into an external system (boto3 API, subprocess, the model
  endpoint) is represented by its `Outcome`: a normal return value, or a
  raised exception carried as its `str(e)` message text.  Tool functions
  are total Lean functions of those outcomes, which embeds the script's
  catch-all `try/except` blocks; "no exception escapes" is the totality
  of the embedding.
* The three credential environment variables are modelled as present
  strings (`Creds`); the script reads them once at import time.
* A boto3 client handle is a pure value determined by the service name
  and the credentials.  Each tool result records the list of client
  handles the call constructed, embedding exactly the `boto3.client`
  invocations appearing in the corresponding Python function body.
* Python string formatting (f-strings over lists of `str`) is embedded
  faithfully, down to `repr` quoting of list elements.
-/

/-- Outcome of a call into an external system: a normal return value, or
a raised exception carried as its message text. -/
inductive Outcome (α : Type) : Type where
  | ok : α → Outcome α
  | exn : String → Outcome α
deriving Repr, DecidableEq

/-- The credential triple read from the environment at import time
(`AWS_ACCESS_KEY`, `AWS_SECRET_KEY`, `REGION_NAME`). -/
structure Creds : Type where
  accessKey : String
  secretKey : String
  region : String
deriving Repr, DecidableEq

/-- A boto3 service client handle: an opaque value determined by the
service name and the credentials it was constructed from.  Embeds
`boto3.client(service, aws_access_key_id=..., aws_secret_access_key=...,
region_name=...)`. -/
structure Client : Type where
  service : String
  creds : Creds
deriving Repr, DecidableEq

/-- `boto3.client` as used in the script: construct a handle for one
service from the credential triple. -/
def boto3_client (service : String) (c : Creds) : Client :=
  ⟨service, c⟩

/-- The three module-level service handles constructed at import time
(lines 19-24 of the script). -/
structure BootClients : Type where
  ec2 : Client
  route53 : Client
  iam : Client
deriving Repr, DecidableEq

/-- Module-level client bootstrap: `ec2`, `route53` and `iam` handles,
each built from the same credential triple. -/
def bootstrapClients (c : Creds) : BootClients :=
  ⟨boto3_client "ec2" c, boto3_client "route53" c, boto3_client "iam" c⟩

/-- A process environment: a finite map from variable names to values,
modelled as a function (absent variables map to `none`). -/
abbrev Envt : Type := String → Option String

/-- `env[k] = v` on a Python dict copied from `os.environ`. -/
def setEnv (e : Envt) (k v : String) : Envt :=
  fun x => if x = k then some v else e x

/-- Result of a completed subprocess (`subprocess.run` with
`capture_output=True, text=True`). -/
structure ProcResult : Type where
  returncode : Int
  stdout : String
  stderr : String
deriving Repr, DecidableEq

/-- Python `str.split()` with no separator argument: split on runs of
whitespace, never producing an empty field.  `cur` carries the chars of
the field being read, in reverse. -/
def pySplitGo : List Char → List Char → List String
  | [], cur => if cur = [] then [] else [String.mk cur.reverse]
  | c :: cs, cur =>
    if c.isWhitespace then
      if cur = [] then pySplitGo cs [] else String.mk cur.reverse :: pySplitGo cs []
    else pySplitGo cs (c :: cur)

/-- Python `s.split()`. -/
def pySplit (s : String) : List String := pySplitGo s.data []

/-- Python `pat in s` on strings: substring test. -/
def pyIn (pat s : String) : Bool := decide (pat.data <:+: s.data)

/-- Python `s.lower()` (ASCII behaviour, which covers every string the
script lowercases). -/
def pyLower (s : String) : String := String.mk (s.data.map Char.toLower)

/-- Quote character chosen by Python `repr` for a string: single quote,
unless the string contains a single quote and no double quote. -/
def pyQuote (s : String) : Char :=
  if decide ('\'' ∈ s.data) && !(decide ('"' ∈ s.data)) then '"' else '\''

/-- Escaping of one character inside a Python `repr` string literal with
quote character `q` (the cases arising for printable ASCII). -/
def pyEscChar (q c : Char) : List Char :=
  if c = '\\' then ['\\', '\\']
  else if c = q then ['\\', q]
  else if c = '\n' then ['\\', 'n']
  else if c = '\r' then ['\\', 'r']
  else if c = '\t' then ['\\', 't']
  else [c]

/-- Characters that Python `repr` passes through unchanged under either
quote choice. -/
def plainChar (c : Char) : Bool :=
  !(c = '\\' || c = '\'' || c = '"' || c = '\n' || c = '\r' || c = '\t')

/-- A string `repr` leaves unescaped. -/
def plainStr (s : String) : Bool := s.data.all plainChar

/-- Python `repr` of a string, as a char list. -/
def pyStrReprData (s : String) : List Char :=
  pyQuote s :: (s.data.map (pyEscChar (pyQuote s))).flatten ++ [pyQuote s]

/-- Python `repr` of a list of strings, inner part: the reprs of the
elements separated by `", "`. -/
def sepSeq : List String → List Char
  | [] => []
  | [x] => pyStrReprData x
  | x :: y :: ys => pyStrReprData x ++ ',' :: ' ' :: sepSeq (y :: ys)

/-- Python `str` of a list of strings, as interpolated by an f-string:
`repr` of each element, `", "` separators, square brackets. -/
def pyListRepr (xs : List String) : String :=
  String.mk ('[' :: sepSeq xs ++ [']'])

/-- Result of one tool-function call: the returned string, plus the list
of boto3 client handles the call constructed (in order). -/
structure ToolResult : Type where
  text : String
  clientsMade : List Client
deriving Repr, DecidableEq

/-- The environment passed to the `aws` subprocess: a copy of
`os.environ` with the three credential variables overridden (lines
32-35). -/
def awsCliEnv (c : Creds) (osEnviron : Envt) : Envt :=
  setEnv (setEnv (setEnv osEnviron "AWS_ACCESS_KEY_ID" c.accessKey)
    "AWS_SECRET_ACCESS_KEY" c.secretKey) "AWS_DEFAULT_REGION" c.region

/-- The full argument vector handed to `subprocess.run`:
`['aws'] + command.split()` (line 38). -/
def awsCliArgv (command : String) : List String :=
  "aws" :: pySplit command

/-- Tool `aws_cli_command` (lines 26-46): spawn the `aws` binary with
the whitespace-split of `command` and the credential environment.  Zero
exit code returns captured stdout; nonzero returns `"Error: "` plus the
captured stderr; a spawn exception is absorbed into an
`"Error executing AWS command: "` string. -/
def aws_cli_command (creds : Creds) (osEnviron : Envt)
    (run : List String → Envt → Outcome ProcResult) (command : String) : ToolResult :=
  ⟨match run (awsCliArgv command) (awsCliEnv creds osEnviron) with
    | .ok result =>
      if result.returncode = 0 then result.stdout
      else "Error: " ++ result.stderr
    | .exn e => "Error executing AWS command: " ++ e,
   []⟩

/-- One hosted zone of a `list_hosted_zones` response. -/
structure HostedZone : Type where
  Name : String
deriving Repr, DecidableEq

/-- Shape of the `route53.list_hosted_zones()` response the script
reads. -/
structure Route53Response : Type where
  HostedZones : List HostedZone
deriving Repr, DecidableEq

/-- Tool `list_route53_hosted_zones` (lines 48-56): call
`list_hosted_zones` on the module-level `route53` handle, format the
zone names; any exception is absorbed into an error string. -/
def list_route53_hosted_zones (route53 : Client)
    (list_hosted_zones : Client → Outcome Route53Response) : ToolResult :=
  ⟨match list_hosted_zones route53 with
    | .ok response =>
      "Route 53 Hosted Zones: " ++ pyListRepr (response.HostedZones.map HostedZone.Name)
    | .exn e => "Error listing Route 53 hosted zones: " ++ e,
   []⟩

/-- One instance record of a `describe_instances` response. -/
structure Ec2Instance : Type where
  InstanceType : String
deriving Repr, DecidableEq

/-- One reservation of a `describe_instances` response. -/
structure Reservation : Type where
  Instances : List Ec2Instance
deriving Repr, DecidableEq

/-- Shape of the `ec2.describe_instances(...)` response the script
reads. -/
structure DescribeInstancesResponse : Type where
  Reservations : List Reservation
deriving Repr, DecidableEq

/-- A boto3 `Filters` entry (named `Ec2Filter` here because `Filter` is
taken by the ambient library). -/
structure Ec2Filter : Type where
  Name : String
  Values : List String
deriving Repr, DecidableEq

/-- Message text of the Python `IndexError` raised by indexing `[0]`
into an empty list, as produced by `str(e)`. -/
def indexErrorMsg : String := "list index out of range"

/-- Tool `get_ec2_instance_size` (lines 58-69): describe instances
filtered by private IP on the module-level `ec2` handle; a truthy
(non-empty) `Reservations` list yields the first reservation's first
instance's type.  Indexing `[0]` into an empty `Instances` list raises
`IndexError`, absorbed by the catch-all into the error string. -/
def get_ec2_instance_size (ec2 : Client)
    (describe_instances : Client → List Ec2Filter → Outcome DescribeInstancesResponse)
    (instance_ip : String) : ToolResult :=
  ⟨match describe_instances ec2 [⟨"private-ip-address", [instance_ip]⟩] with
    | .ok instances =>
      match instances.Reservations with
      | [] => "No EC2 instance found with IP address: " ++ instance_ip
      | reservation :: _ =>
        match reservation.Instances with
        | [] => "Error getting EC2 instance size: " ++ indexErrorMsg
        | inst :: _ =>
          "EC2 instance " ++ instance_ip ++ " is of type: " ++ inst.InstanceType
    | .exn e => "Error getting EC2 instance size: " ++ e,
   []⟩

/-- One attached policy of a `list_attached_user_policies` response. -/
structure AttachedPolicy : Type where
  PolicyName : String
deriving Repr, DecidableEq

/-- Shape of the `iam.list_attached_user_policies(...)` response the
script reads. -/
structure IamPoliciesResponse : Type where
  AttachedPolicies : List AttachedPolicy
deriving Repr, DecidableEq

/-- Tool `get_user_permissions` (lines 71-79): list the policies
attached to `user_name` on the module-level `iam` handle and format
their names; any exception is absorbed into an error string. -/
def get_user_permissions (iam : Client)
    (list_attached_user_policies : Client → String → Outcome IamPoliciesResponse)
    (user_name : String) : ToolResult :=
  ⟨match list_attached_user_policies iam user_name with
    | .ok policies =>
      "IAM user '" ++ user_name ++ "' has these policies: "
        ++ pyListRepr (policies.AttachedPolicies.map AttachedPolicy.PolicyName)
    | .exn e => "Error getting user permissions: " ++ e,
   []⟩

/-- One bucket of a `list_buckets` response. -/
structure Bucket : Type where
  Name : String
deriving Repr, DecidableEq

/-- Shape of the `s3.list_buckets()` response the script reads. -/
structure S3Response : Type where
  Buckets : List Bucket
deriving Repr, DecidableEq

/-- Tool `list_s3_buckets` (lines 81-91): construct a fresh `s3` client
from the credential triple inside the call, list the buckets on it and
format their names; any exception is absorbed into an error string. -/
def list_s3_buckets (creds : Creds)
    (list_buckets : Client → Outcome S3Response) : ToolResult :=
  let s3 := boto3_client "s3" creds
  ⟨match list_buckets s3 with
    | .ok response =>
      "S3 Buckets: " ++ pyListRepr (response.Buckets.map Bucket.Name)
    | .exn e => "Error listing S3 buckets: " ++ e,
   [s3]⟩

/-- The tool the harness's elif chain selects, with the literal argument
the harness passes it. -/
inductive ToolChoice : Type where
  | s3Buckets : ToolChoice
  | route53Zones : ToolChoice
  | ec2Size : String → ToolChoice
  | iamPerms : String → ToolChoice
deriving Repr, DecidableEq

/-- Keyword dispatch of `test_aws_agent` (lines 140-155): the elif chain
of case-insensitive substring tests, first match wins; the IP rule tests
`"10.0.1.112" in query` against the raw (not lowercased) query. -/
def dispatch (query : String) : Option ToolChoice :=
  if pyIn "s3" (pyLower query) && pyIn "bucket" (pyLower query) then
    some ToolChoice.s3Buckets
  else if pyIn "route 53" (pyLower query) || pyIn "hosted zone" (pyLower query) then
    some ToolChoice.route53Zones
  else if pyIn "ec2" (pyLower query) && pyIn "10.0.1.112" query then
    some (ToolChoice.ec2Size "10.0.1.112")
  else if pyIn "iam" (pyLower query) && pyIn "take-home-coding" (pyLower query) then
    some (ToolChoice.iamPerms "take-home-coding")
  else none

/-- Observable event of one harness iteration: a line printed, or a tool
function invoked. -/
inductive Event : Type where
  | printed : String → Event
  | toolCall : ToolChoice → Event
deriving Repr, DecidableEq

/-- The `'='*50` separator line. -/
def eqLine : String := String.mk (List.replicate 50 '=')

/-- The three header prints at the top of each iteration (lines
130-132). -/
def headerEvents (query : String) : List Event :=
  [Event.printed ("\n" ++ eqLine),
   Event.printed ("Query: " ++ query),
   Event.printed eqLine]

/-- The announcement line the harness prints before invoking the chosen
tool. -/
def execMsg : ToolChoice → String
  | ToolChoice.s3Buckets => "\nExecuting S3 bucket listing..."
  | ToolChoice.route53Zones => "\nExecuting Route 53 hosted zones listing..."
  | ToolChoice.ec2Size _ => "\nGetting EC2 instance size..."
  | ToolChoice.iamPerms _ => "\nGetting IAM user permissions..."

/-- One iteration of the harness loop (lines 128-158): print the header,
call the model on the query, print its text, then dispatch and run at
most one tool.  `llmOutcome` is the outcome of `chain.invoke`;
`toolResult` gives each tool call's returned string.  An exception from
the model call is caught by the iteration-level `except` and printed;
everything after it in the iteration is skipped. -/
def queryIteration (llmOutcome : Outcome String)
    (toolResult : ToolChoice → String) (query : String) : List Event :=
  headerEvents query ++
    match llmOutcome with
    | .exn e => [Event.printed ("Error: " ++ e)]
    | .ok content =>
      [Event.printed "Agent response:", Event.printed content] ++
        match dispatch query with
        | none => []
        | some t =>
          [Event.printed (execMsg t), Event.toolCall t,
           Event.printed ("Result: " ++ toolResult t)]

/-- The fixed query list of `test_aws_agent` (lines 121-126). -/
def test_queries : List String :=
  ["List all S3 buckets in my AWS account",
   "List all Route 53 hosted zones",
   "Get the size of EC2 instance with IP 10.0.1.112",
   "Get permissions for IAM user take-home-coding"]

/-- The harness `test_aws_agent`: run every query in order, each
iteration isolated by its own catch-all; the full event trace is the
concatenation of the per-query traces. -/
def test_aws_agent (llm : String → Outcome String)
    (toolResult : ToolChoice → String) : List Event :=
  (test_queries.map (fun q => queryIteration (llm q) toolResult q)).flatten

/-- `t` occurs at the start of `s`. -/
def strStarts (t s : String) : Prop := t.data <+: s.data

/-- `t` occurs somewhere inside `s` (Python `t in s`, as a Prop). -/
def strHasSub (t s : String) : Prop := t.data <:+: s.data

/-- The char lists `ns` all occur inside `s`, disjointly and in order. -/
def containsInOrder : List Char → List (List Char) → Prop
  | _, [] => True
  | s, n :: ns => ∃ pre suf, s = pre ++ n ++ suf ∧ containsInOrder suf ns

instance (t s : String) : Decidable (strStarts t s) :=
  inferInstanceAs (Decidable (t.data <+: s.data))

instance (t s : String) : Decidable (strHasSub t s) :=
  inferInstanceAs (Decidable (t.data <:+: s.data))

theorem strData_append (a b : String) : (a ++ b).data = a.data ++ b.data := by
  cases a; cases b; rfl

/-- A string starting with `u` starts with any prefix of `u`. -/
theorem strStarts_append (t u e : String) (h : t.data <+: u.data) :
    strStarts t (u ++ e) := by
  unfold strStarts
  rw [strData_append]
  exact h.trans (List.prefix_append u.data e.data)

/-- A string occurs inside anything it is appended after. -/
theorem strHasSub_right (t p : String) : strHasSub t (p ++ t) := by
  unfold strHasSub
  rw [strData_append]
  exact ⟨p.data, [], by simp⟩

/-- `"Error"` cannot start `l ++ rest` when it cannot start the (long
enough) left part `l`. -/
theorem errNotStarts (l rest : List Char)
    (hlen : ("Error" : String).data.length ≤ l.length)
    (hno : ¬ (("Error" : String).data <+: l)) :
    ¬ (("Error" : String).data <+: l ++ rest) := fun h =>
  hno (List.prefix_of_prefix_length_le h (List.prefix_append l rest) hlen)

/-- C1: For every one of the five tool functions and for every outcome of
the underlying provider call, the function returns a string (each tool is
a total function into `ToolResult`, embedding that no exception crosses a
tool boundary); when the provider call raises with message `e`, the
returned string starts with that function's designated `"Error ...:"`
prefix and contains `e`. -/
theorem c1_tools_absorb_errors (e : String) (creds : Creds) (osEnviron : Envt)
    (run : List String → Envt → Outcome ProcResult) (command : String)
    (route53cl ec2cl iamcl : Client)
    (lhz : Client → Outcome Route53Response)
    (di : Client → List Ec2Filter → Outcome DescribeInstancesResponse)
    (lap : Client → String → Outcome IamPoliciesResponse)
    (lb : Client → Outcome S3Response)
    (ip user : String)
    (h1 : run (awsCliArgv command) (awsCliEnv creds osEnviron) = Outcome.exn e)
    (h2 : lhz route53cl = Outcome.exn e)
    (h3 : di ec2cl [⟨"private-ip-address", [ip]⟩] = Outcome.exn e)
    (h4 : lap iamcl user = Outcome.exn e)
    (h5 : lb (boto3_client "s3" creds) = Outcome.exn e) :
    (strStarts "Error executing AWS command:"
        (aws_cli_command creds osEnviron run command).text ∧
      strHasSub e (aws_cli_command creds osEnviron run command).text) ∧
    (strStarts "Error listing Route 53 hosted zones:"
        (list_route53_hosted_zones route53cl lhz).text ∧
      strHasSub e (list_route53_hosted_zones route53cl lhz).text) ∧
    (strStarts "Error getting EC2 instance size:"
        (get_ec2_instance_size ec2cl di ip).text ∧
      strHasSub e (get_ec2_instance_size ec2cl di ip).text) ∧
    (strStarts "Error getting user permissions:"
        (get_user_permissions iamcl lap user).text ∧
      strHasSub e (get_user_permissions iamcl lap user).text) ∧
    (strStarts "Error listing S3 buckets:"
        (list_s3_buckets creds lb).text ∧
      strHasSub e (list_s3_buckets creds lb).text) := by
  simp only [aws_cli_command, list_route53_hosted_zones, get_ec2_instance_size,
    get_user_permissions, list_s3_buckets, h1, h2, h3, h4, h5]
  exact ⟨⟨strStarts_append _ _ _ (by decide), strHasSub_right _ _⟩,
    ⟨strStarts_append _ _ _ (by decide), strHasSub_right _ _⟩,
    ⟨strStarts_append _ _ _ (by decide), strHasSub_right _ _⟩,
    ⟨strStarts_append _ _ _ (by decide), strHasSub_right _ _⟩,
    ⟨strStarts_append _ _ _ (by decide), strHasSub_right _ _⟩⟩

/-- C1 witness: the five error strings at a concrete raised exception. -/
theorem c1_witness :
    (strStarts "Error executing AWS command:"
        (aws_cli_command ⟨"ak", "sk", "eu"⟩ (fun _ => none)
          (fun _ _ => Outcome.exn "boom") "s3 ls").text ∧
      strHasSub "boom"
        (aws_cli_command ⟨"ak", "sk", "eu"⟩ (fun _ => none)
          (fun _ _ => Outcome.exn "boom") "s3 ls").text) ∧
    (strStarts "Error listing Route 53 hosted zones:"
        (list_route53_hosted_zones (boto3_client "route53" ⟨"ak", "sk", "eu"⟩)
          (fun _ => Outcome.exn "boom")).text ∧
      strHasSub "boom"
        (list_route53_hosted_zones (boto3_client "route53" ⟨"ak", "sk", "eu"⟩)
          (fun _ => Outcome.exn "boom")).text) ∧
    (strStarts "Error getting EC2 instance size:"
        (get_ec2_instance_size (boto3_client "ec2" ⟨"ak", "sk", "eu"⟩)
          (fun _ _ => Outcome.exn "boom") "10.0.1.112").text ∧
      strHasSub "boom"
        (get_ec2_instance_size (boto3_client "ec2" ⟨"ak", "sk", "eu"⟩)
          (fun _ _ => Outcome.exn "boom") "10.0.1.112").text) ∧
    (strStarts "Error getting user permissions:"
        (get_user_permissions (boto3_client "iam" ⟨"ak", "sk", "eu"⟩)
          (fun _ _ => Outcome.exn "boom") "take-home-coding").text ∧
      strHasSub "boom"
        (get_user_permissions (boto3_client "iam" ⟨"ak", "sk", "eu"⟩)
          (fun _ _ => Outcome.exn "boom") "take-home-coding").text) ∧
    (strStarts "Error listing S3 buckets:"
        (list_s3_buckets ⟨"ak", "sk", "eu"⟩ (fun _ => Outcome.exn "boom")).text ∧
      strHasSub "boom"
        (list_s3_buckets ⟨"ak", "sk", "eu"⟩ (fun _ => Outcome.exn "boom")).text) :=
  c1_tools_absorb_errors "boom" ⟨"ak", "sk", "eu"⟩ (fun _ => none)
    (fun _ _ => Outcome.exn "boom") "s3 ls"
    (boto3_client "route53" ⟨"ak", "sk", "eu"⟩)
    (boto3_client "ec2" ⟨"ak", "sk", "eu"⟩)
    (boto3_client "iam" ⟨"ak", "sk", "eu"⟩)
    (fun _ => Outcome.exn "boom") (fun _ _ => Outcome.exn "boom")
    (fun _ _ => Outcome.exn "boom") (fun _ => Outcome.exn "boom")
    "10.0.1.112" "take-home-coding" rfl rfl rfl rfl rfl

/-- C2: On input `"ec2 describe-regions"` the CLI tool spawns the `aws`
binary with argument list `["ec2", "describe-regions"]` in a cloned
environment with the three credential variables set; a zero exit code
returns captured stdout, a nonzero exit code returns a string prefixed
`"Error:"` containing captured stderr. -/
theorem c2_cli_describe_regions (creds : Creds) (osEnviron : Envt) :
    pySplit "ec2 describe-regions" = ["ec2", "describe-regions"] ∧
    awsCliArgv "ec2 describe-regions" = ["aws", "ec2", "describe-regions"] ∧
    awsCliEnv creds osEnviron "AWS_ACCESS_KEY_ID" = some creds.accessKey ∧
    awsCliEnv creds osEnviron "AWS_SECRET_ACCESS_KEY" = some creds.secretKey ∧
    awsCliEnv creds osEnviron "AWS_DEFAULT_REGION" = some creds.region ∧
    (∀ (run : List String → Envt → Outcome ProcResult) (out err : String),
      run (awsCliArgv "ec2 describe-regions") (awsCliEnv creds osEnviron) =
          Outcome.ok ⟨0, out, err⟩ →
        (aws_cli_command creds osEnviron run "ec2 describe-regions").text = out) ∧
    (∀ (run : List String → Envt → Outcome ProcResult) (code : Int) (out err : String),
      code ≠ 0 →
      run (awsCliArgv "ec2 describe-regions") (awsCliEnv creds osEnviron) =
          Outcome.ok ⟨code, out, err⟩ →
        strStarts "Error:" (aws_cli_command creds osEnviron run "ec2 describe-regions").text ∧
        strHasSub err (aws_cli_command creds osEnviron run "ec2 describe-regions").text) := by
  refine ⟨by decide, by decide, ?_, ?_, ?_, ?_, ?_⟩
  · simp [awsCliEnv, setEnv]
  · simp [awsCliEnv, setEnv]
  · simp [awsCliEnv, setEnv]
  · intro run out err hrun
    simp [aws_cli_command, hrun]
  · intro run code out err hcode hrun
    simp only [aws_cli_command, hrun, if_neg hcode]
    exact ⟨strStarts_append _ _ _ (by decide), strHasSub_right _ _⟩

/-- C2 witness: concrete credentials, a failing run and a succeeding
run. -/
theorem c2_witness :
    pySplit "ec2 describe-regions" = ["ec2", "describe-regions"] ∧
    awsCliEnv ⟨"ak", "sk", "eu"⟩ (fun _ => none) "AWS_ACCESS_KEY_ID" = some "ak" ∧
    (aws_cli_command ⟨"ak", "sk", "eu"⟩ (fun _ => none)
      (fun _ _ => Outcome.ok ⟨0, "regions", ""⟩) "ec2 describe-regions").text = "regions" ∧
    strStarts "Error:"
      (aws_cli_command ⟨"ak", "sk", "eu"⟩ (fun _ => none)
        (fun _ _ => Outcome.ok ⟨255, "", "denied"⟩) "ec2 describe-regions").text := by
  have h := c2_cli_describe_regions ⟨"ak", "sk", "eu"⟩ (fun _ => none)
  exact ⟨h.1, h.2.2.1,
    h.2.2.2.2.2.1 (fun _ _ => Outcome.ok ⟨0, "regions", ""⟩) "regions" "" rfl,
    (h.2.2.2.2.2.2 (fun _ _ => Outcome.ok ⟨255, "", "denied"⟩) 255 "" "denied"
      (by decide) rfl).1⟩

/-- C8: `list_s3_buckets` constructs a fresh storage handle from the
credential triple on every call; no other tool constructs a handle, and
the three module-level handles are exactly the ones the bootstrap built
(the tools are pure functions of their given handle, so they cannot
mutate the bootstrap record). -/
theorem c8_fresh_s3_client (creds : Creds) (osEnviron : Envt)
    (run : List String → Envt → Outcome ProcResult) (command : String)
    (route53cl ec2cl iamcl : Client)
    (lhz : Client → Outcome Route53Response)
    (di : Client → List Ec2Filter → Outcome DescribeInstancesResponse)
    (lap : Client → String → Outcome IamPoliciesResponse)
    (lb : Client → Outcome S3Response)
    (ip user : String) :
    (list_s3_buckets creds lb).clientsMade = [boto3_client "s3" creds] ∧
    (aws_cli_command creds osEnviron run command).clientsMade = [] ∧
    (list_route53_hosted_zones route53cl lhz).clientsMade = [] ∧
    (get_ec2_instance_size ec2cl di ip).clientsMade = [] ∧
    (get_user_permissions iamcl lap user).clientsMade = [] ∧
    bootstrapClients creds =
      ⟨boto3_client "ec2" creds, boto3_client "route53" creds, boto3_client "iam" creds⟩ :=
  ⟨rfl, rfl, rfl, rfl, rfl, rfl⟩

/-- C9: When the response has a non-empty `Reservations` list whose first
reservation has an empty `Instances` list, indexing `[0]` raises an
`IndexError` absorbed by the catch-all, so the result is the
`"Error getting EC2 instance size:"` string, not the
`"No EC2 instance found"` message. -/
theorem c9_empty_instances_list (ec2cl : Client)
    (di : Client → List Ec2Filter → Outcome DescribeInstancesResponse)
    (ip : String) (rest : List Reservation)
    (h : di ec2cl [⟨"private-ip-address", [ip]⟩] =
        Outcome.ok ⟨Reservation.mk [] :: rest⟩) :
    (get_ec2_instance_size ec2cl di ip).text =
      "Error getting EC2 instance size: " ++ indexErrorMsg ∧
    strStarts "Error getting EC2 instance size:" (get_ec2_instance_size ec2cl di ip).text ∧
    ¬ strStarts "No EC2 instance found" (get_ec2_instance_size ec2cl di ip).text := by
  simp only [get_ec2_instance_size, h]
  exact ⟨trivial, by decide, by decide⟩

/-- C9 witness: a concrete response with one reservation and no
instances. -/
theorem c9_witness :
    (get_ec2_instance_size (boto3_client "ec2" ⟨"ak", "sk", "eu"⟩)
        (fun _ _ => Outcome.ok ⟨[Reservation.mk []]⟩) "10.0.1.112").text =
      "Error getting EC2 instance size: " ++ indexErrorMsg ∧
    strStarts "Error getting EC2 instance size:"
      (get_ec2_instance_size (boto3_client "ec2" ⟨"ak", "sk", "eu"⟩)
        (fun _ _ => Outcome.ok ⟨[Reservation.mk []]⟩) "10.0.1.112").text ∧
    ¬ strStarts "No EC2 instance found"
      (get_ec2_instance_size (boto3_client "ec2" ⟨"ak", "sk", "eu"⟩)
        (fun _ _ => Outcome.ok ⟨[Reservation.mk []]⟩) "10.0.1.112").text :=
  c9_empty_instances_list (boto3_client "ec2" ⟨"ak", "sk", "eu"⟩)
    (fun _ _ => Outcome.ok ⟨[Reservation.mk []]⟩) "10.0.1.112" [] rfl

/-- A split field built from a non-empty run of non-whitespace chars is a
non-empty whitespace-free string. -/
theorem splitField_ok (cur : List Char) (h : cur ≠ [])
    (hcur : ∀ c ∈ cur, c.isWhitespace = false) :
    String.mk cur.reverse ≠ "" ∧
      ∀ c ∈ (String.mk cur.reverse).data, c.isWhitespace = false := by
  constructor
  · intro hemp
    apply h
    have h2 : cur.reverse = ([] : List Char) := congrArg String.data hemp
    simpa using h2
  · intro c hc
    have hc' : c ∈ cur.reverse := hc
    exact hcur c (List.mem_reverse.mp hc')

/-- Every field `pySplitGo` produces is non-empty and whitespace-free. -/
theorem pySplitGo_fields : ∀ (cs cur : List Char),
    (∀ c ∈ cur, c.isWhitespace = false) →
    ∀ a ∈ pySplitGo cs cur, a ≠ "" ∧ ∀ c ∈ a.data, c.isWhitespace = false := by
  intro cs
  induction cs with
  | nil =>
    intro cur hcur a ha
    simp only [pySplitGo] at ha
    by_cases h : cur = []
    · simp [h] at ha
    · simp only [h, if_neg, if_false, List.mem_singleton] at ha
      subst ha
      exact splitField_ok cur h hcur
  | cons c cs ih =>
    intro cur hcur a ha
    simp only [pySplitGo] at ha
    by_cases hw : c.isWhitespace
    · simp only [hw, if_true] at ha
      by_cases hcurE : cur = []
      · simp only [hcurE, if_true] at ha
        exact ih [] (by simp) a ha
      · simp only [hcurE, if_false, List.mem_cons] at ha
        rcases ha with ha | ha
        · subst ha
          exact splitField_ok cur hcurE hcur
        · exact ih [] (by simp) a ha
    · simp only [hw, if_false] at ha
      refine ih (c :: cur) ?_ a ha
      intro x hx
      rcases List.mem_cons.mp hx with hx | hx
      · subst hx
        simpa using hw
      · exact hcur x hx

/-- Concatenating the fields of `pySplitGo` recovers exactly the
non-whitespace characters, in order. -/
theorem pySplitGo_flatten : ∀ (cs cur : List Char),
    ((pySplitGo cs cur).map String.data).flatten =
      cur.reverse ++ cs.filter (fun c => !c.isWhitespace) := by
  intro cs
  induction cs with
  | nil =>
    intro cur
    by_cases h : cur = []
    · simp [pySplitGo, h]
    · simp [pySplitGo, h]
  | cons c cs ih =>
    intro cur
    by_cases hw : c.isWhitespace
    · by_cases hcurE : cur = []
      · simp [pySplitGo, hw, hcurE, ih []]
      · simp [pySplitGo, hw, hcurE, ih []]
    · simp [pySplitGo, hw, ih (c :: cur), List.append_assoc]

/-- An all-whitespace input splits into no fields. -/
theorem pySplitGo_all_ws : ∀ (cs : List Char),
    (∀ c ∈ cs, c.isWhitespace = true) → pySplitGo cs [] = [] := by
  intro cs
  induction cs with
  | nil => intro _; simp [pySplitGo]
  | cons c cs ih =>
    intro h
    have hw : c.isWhitespace = true := h c (by simp)
    simp only [pySplitGo, hw, if_true]
    exact ih (fun x hx => h x (by simp [hx]))

/-- C10: The CLI tool's argument list is the whitespace-split of the
input: every produced argument is non-empty and whitespace-free, their
concatenation is the input minus its whitespace (so runs of consecutive
whitespace are collapsed), and an empty or all-whitespace input spawns
the binary with no further arguments. -/
theorem c10_whitespace_split (command : String) :
    (∀ a ∈ pySplit command, a ≠ "" ∧ ∀ c ∈ a.data, c.isWhitespace = false) ∧
    ((pySplit command).map String.data).flatten =
      command.data.filter (fun c => !c.isWhitespace) ∧
    (command.data.all Char.isWhitespace = true → awsCliArgv command = ["aws"]) ∧
    pySplit "  a   bb  " = ["a", "bb"] := by
  refine ⟨pySplitGo_fields command.data [] (by simp), ?_, ?_, by decide⟩
  · simpa using pySplitGo_flatten command.data []
  · intro h
    unfold awsCliArgv pySplit
    rw [pySplitGo_all_ws command.data (by simpa [List.all_eq_true] using h)]

/-- C10 witness: whitespace runs collapse, an all-whitespace command
spawns `aws` alone, and a produced argument is non-empty. -/
theorem c10_witness :
    pySplit "  a   bb  " = ["a", "bb"] ∧ awsCliArgv "   " = ["aws"] ∧
    ("a" : String) ≠ "" :=
  ⟨(c10_whitespace_split "x").2.2.2,
   (c10_whitespace_split "   ").2.2.1 (by decide),
   ((c10_whitespace_split "  a   bb  ").1 "a" (by decide)).1⟩

/-- C4: `dispatch` is a function of the query text (hence deterministic)
into `Option ToolChoice` (hence selects at most one tool), and it is
first-match: a query containing both `"s3 bucket"` (hence `"s3"` and
`"bucket"`) and `"hosted zone"` selects only the S3 tool, because the S3
rule is tested first. -/
theorem c4_first_match_wins (q : String)
    (h1 : strHasSub "s3 bucket" q) (h2 : strHasSub "hosted zone" q) :
    dispatch q = some ToolChoice.s3Buckets := by
  have hmap : ("s3 bucket" : String).data.map Char.toLower <:+: (pyLower q).data :=
    (show ("s3 bucket" : String).data <:+: q.data from h1).map Char.toLower
  have hlow : ("s3 bucket" : String).data.map Char.toLower = ("s3 bucket" : String).data := by
    decide
  rw [hlow] at hmap
  have hs3 : pyIn "s3" (pyLower q) = true :=
    decide_eq_true ((show ("s3" : String).data <:+: ("s3 bucket" : String).data by
      decide).trans hmap)
  have hb : pyIn "bucket" (pyLower q) = true :=
    decide_eq_true ((show ("bucket" : String).data <:+: ("s3 bucket" : String).data by
      decide).trans hmap)
  simp [dispatch, hs3, hb]

/-- C4 witness: a query containing both rule keywords selects the S3
tool. -/
theorem c4_witness :
    dispatch "s3 bucket hosted zone" = some ToolChoice.s3Buckets :=
  c4_first_match_wins "s3 bucket hosted zone" (by decide) (by decide)

/-- C7: A query the rule table does not match invokes zero tools: its
iteration is exactly the header plus the model's text, with no
`toolCall` event. -/
theorem c7_no_rule_no_tool (llm : String → Outcome String)
    (toolResult : ToolChoice → String) (q content : String)
    (hllm : llm q = Outcome.ok content) (hd : dispatch q = none) :
    queryIteration (llm q) toolResult q =
      headerEvents q ++ [Event.printed "Agent response:", Event.printed content] ∧
    ∀ ev ∈ queryIteration (llm q) toolResult q, ∀ t, ev ≠ Event.toolCall t := by
  have hmain : queryIteration (llm q) toolResult q =
      headerEvents q ++ [Event.printed "Agent response:", Event.printed content] := by
    simp [queryIteration, hllm, hd]
  refine ⟨hmain, ?_⟩
  intro ev hev t
  rw [hmain] at hev
  simp [headerEvents] at hev
  rcases hev with h | h | h | h | h <;> subst h <;> simp

/-- C7 witness: a query matching no rule at a concrete model reply. -/
theorem c7_witness :
    queryIteration (Outcome.ok "hi") (fun _ => "") "hello" =
      headerEvents "hello" ++ [Event.printed "Agent response:", Event.printed "hi"] :=
  (c7_no_rule_no_tool (fun _ => Outcome.ok "hi") (fun _ => "") "hello" "hi" rfl
    (by decide)).1

/-- C6: An exception from the model call is caught at the iteration
level and printed (the iteration trace ends in the printed error, and
the harness functions are total, embedding that nothing escapes), and
every query's full iteration occurs in the harness trace whatever the
outcomes of the other iterations — the harness proceeds to the next
query regardless. -/
theorem c6_iteration_isolation (llm : String → Outcome String)
    (toolResult : ToolChoice → String) :
    (∀ q e, llm q = Outcome.exn e →
      queryIteration (llm q) toolResult q =
        headerEvents q ++ [Event.printed ("Error: " ++ e)]) ∧
    (∀ q ∈ test_queries, ∃ pre suf,
      test_aws_agent llm toolResult =
        pre ++ queryIteration (llm q) toolResult q ++ suf) := by
  constructor
  · intro q e h
    simp [queryIteration, h]
  · intro q hq
    obtain ⟨l1, l2, hsplit⟩ := List.append_of_mem hq
    refine ⟨(l1.map (fun x => queryIteration (llm x) toolResult x)).flatten,
      (l2.map (fun x => queryIteration (llm x) toolResult x)).flatten, ?_⟩
    simp [test_aws_agent, hsplit]

/-- C6 witness: with the model endpoint down for every query, the second
query's iteration is still a full segment of the harness trace and ends
in the printed error. -/
theorem c6_witness :
    queryIteration (Outcome.exn "api down") (fun _ => "")
        "List all Route 53 hosted zones" =
      headerEvents "List all Route 53 hosted zones" ++
        [Event.printed ("Error: " ++ "api down")] ∧
    ∃ pre suf,
      test_aws_agent (fun _ => Outcome.exn "api down") (fun _ => "") =
        pre ++ queryIteration (Outcome.exn "api down") (fun _ => "")
          "List all Route 53 hosted zones" ++ suf := by
  have h := c6_iteration_isolation (fun _ => Outcome.exn "api down") (fun _ => "")
  exact ⟨h.1 "List all Route 53 hosted zones" "api down" rfl,
    h.2 "List all Route 53 hosted zones" (by decide)⟩

/-- C3: With an empty `Reservations` list the tool returns the literal
`"No EC2 instance found"` message containing the input IP; with at least
one reservation whose first entry has a first instance, it returns a
string containing that instance's type (only the first reservation's
first instance is read). -/
theorem c3_first_instance_reported (ec2cl : Client)
    (di : Client → List Ec2Filter → Outcome DescribeInstancesResponse)
    (ip : String) :
    (di ec2cl [⟨"private-ip-address", [ip]⟩] = Outcome.ok ⟨[]⟩ →
      (get_ec2_instance_size ec2cl di ip).text =
        "No EC2 instance found with IP address: " ++ ip ∧
      strHasSub ip (get_ec2_instance_size ec2cl di ip).text) ∧
    (∀ (inst : Ec2Instance) (insts : List Ec2Instance) (rest : List Reservation),
      di ec2cl [⟨"private-ip-address", [ip]⟩] =
          Outcome.ok ⟨Reservation.mk (inst :: insts) :: rest⟩ →
      (get_ec2_instance_size ec2cl di ip).text =
        "EC2 instance " ++ ip ++ " is of type: " ++ inst.InstanceType ∧
      strHasSub inst.InstanceType (get_ec2_instance_size ec2cl di ip).text) := by
  constructor
  · intro h
    have htext : (get_ec2_instance_size ec2cl di ip).text =
        "No EC2 instance found with IP address: " ++ ip := by
      simp [get_ec2_instance_size, h]
    rw [htext]
    exact ⟨rfl, strHasSub_right ip _⟩
  · intro inst insts rest h
    have htext : (get_ec2_instance_size ec2cl di ip).text =
        "EC2 instance " ++ ip ++ " is of type: " ++ inst.InstanceType := by
      simp [get_ec2_instance_size, h]
    rw [htext]
    exact ⟨rfl, strHasSub_right _ _⟩

/-- C3 witness: zero matches and one concrete match. -/
theorem c3_witness :
    (get_ec2_instance_size (boto3_client "ec2" ⟨"ak", "sk", "eu"⟩)
        (fun _ _ => Outcome.ok ⟨[]⟩) "10.0.1.112").text =
      "No EC2 instance found with IP address: " ++ "10.0.1.112" ∧
    strHasSub "t3.micro"
      (get_ec2_instance_size (boto3_client "ec2" ⟨"ak", "sk", "eu"⟩)
        (fun _ _ => Outcome.ok ⟨[Reservation.mk [Ec2Instance.mk "t3.micro"]]⟩)
        "10.0.1.112").text :=
  ⟨((c3_first_instance_reported (boto3_client "ec2" ⟨"ak", "sk", "eu"⟩)
      (fun _ _ => Outcome.ok ⟨[]⟩) "10.0.1.112").1 rfl).1,
   ((c3_first_instance_reported (boto3_client "ec2" ⟨"ak", "sk", "eu"⟩)
      (fun _ _ => Outcome.ok ⟨[Reservation.mk [Ec2Instance.mk "t3.micro"]]⟩)
      "10.0.1.112").2 ⟨"t3.micro"⟩ [] [] rfl).2⟩

/-- A plain character escapes to itself. -/
theorem pyEscChar_plain (c : Char) (h : plainChar c = true) :
    pyEscChar '\'' c = [c] := by
  simp only [plainChar, Bool.not_eq_true', Bool.or_eq_false_iff,
    decide_eq_false_iff_not] at h
  obtain ⟨⟨⟨⟨⟨hA, hB⟩, hC⟩, hD⟩, hE⟩, hF⟩ := h
  simp [pyEscChar, hA, hB, hC, hD, hE, hF]

/-- Escaping a list of plain characters is the identity. -/
theorem escFlatten_plain (l : List Char) (h : ∀ c ∈ l, plainChar c = true) :
    (l.map (pyEscChar '\'')).flatten = l := by
  induction l with
  | nil => rfl
  | cons c cs ih =>
    simp [pyEscChar_plain c (h c (by simp)), ih (fun x hx => h x (by simp [hx]))]

/-- A plain string gets single quotes. -/
theorem pyQuote_plain (s : String) (h : plainStr s = true) : pyQuote s = '\'' := by
  have hall : ∀ c ∈ s.data, plainChar c = true := by
    simpa [plainStr, List.all_eq_true] using h
  have h1 : ¬ ('\'' ∈ s.data) := fun hm => by
    simpa [plainChar] using hall '\'' hm
  simp [pyQuote, h1]

/-- `repr` of a plain string is the string between single quotes. -/
theorem pyStrReprData_plain (s : String) (h : plainStr s = true) :
    pyStrReprData s = '\'' :: s.data ++ ['\''] := by
  have hall : ∀ c ∈ s.data, plainChar c = true := by
    simpa [plainStr, List.all_eq_true] using h
  rw [pyStrReprData, pyQuote_plain s h, escFlatten_plain s.data hall]

/-- In-order containment survives prepending. -/
theorem containsInOrder_mono (pre s : List Char) (ns : List (List Char))
    (h : containsInOrder s ns) : containsInOrder (pre ++ s) ns := by
  cases ns with
  | nil => trivial
  | cons n ns =>
    obtain ⟨p, q, heq, hrest⟩ := h
    exact ⟨pre ++ p, q, by rw [heq]; simp [List.append_assoc], hrest⟩

/-- The separated `repr` sequence of plain names contains every name, in
order, whatever follows it. -/
theorem sepSeq_contains : ∀ (names : List String) (suffix : List Char),
    (∀ n ∈ names, plainStr n = true) →
    containsInOrder (sepSeq names ++ suffix) (names.map String.data) := by
  intro names
  induction names with
  | nil => intro suffix _; trivial
  | cons x xs ih =>
    intro suffix h
    have hx := pyStrReprData_plain x (h x (by simp))
    cases xs with
    | nil =>
      refine ⟨['\''], '\'' :: suffix, ?_, trivial⟩
      simp [sepSeq, hx]
    | cons y ys =>
      refine ⟨['\''], '\'' :: ',' :: ' ' :: (sepSeq (y :: ys) ++ suffix), ?_, ?_⟩
      · simp [sepSeq, hx, List.append_assoc]
      · exact containsInOrder_mono ['\'', ',', ' '] _ _
          (ih suffix (fun n hn => h n (by simp [hn])))

/-- A labelled Python list `repr` of plain names contains every name, in
order. -/
theorem pyListRepr_contains (label : String) (names : List String)
    (h : ∀ n ∈ names, plainStr n = true) :
    containsInOrder (label ++ pyListRepr names).data (names.map String.data) := by
  rw [strData_append]
  show containsInOrder (label.data ++ ('[' :: sepSeq names ++ [']'])) _
  have h2 := containsInOrder_mono (label.data ++ ['[']) _ _
    (sepSeq_contains names [']'] h)
  simpa [List.append_assoc] using h2

/-- C5: For each of the five tools, on a provider success response the
returned string contains every expected item name in response order and
carries no `"Error"` prefix.  For the CLI tool the returned string is
the captured stdout verbatim, so it contains the stdout text and adds no
`"Error"` prefix of its own. -/
theorem c5_success_contains_items
    (creds : Creds) (osEnviron : Envt) (command : String)
    (route53cl ec2cl iamcl : Client)
    (run : List String → Envt → Outcome ProcResult)
    (lhz : Client → Outcome Route53Response)
    (di : Client → List Ec2Filter → Outcome DescribeInstancesResponse)
    (lap : Client → String → Outcome IamPoliciesResponse)
    (lb : Client → Outcome S3Response)
    (ip user out err : String)
    (hrun : run (awsCliArgv command) (awsCliEnv creds osEnviron) =
      Outcome.ok ⟨0, out, err⟩)
    (zones : List HostedZone) (hlhz : lhz route53cl = Outcome.ok ⟨zones⟩)
    (hzp : ∀ z ∈ zones, plainStr z.Name = true)
    (inst : Ec2Instance) (insts : List Ec2Instance) (rest : List Reservation)
    (hdi : di ec2cl [⟨"private-ip-address", [ip]⟩] =
      Outcome.ok ⟨Reservation.mk (inst :: insts) :: rest⟩)
    (pols : List AttachedPolicy) (hlap : lap iamcl user = Outcome.ok ⟨pols⟩)
    (hpp : ∀ p ∈ pols, plainStr p.PolicyName = true)
    (buckets : List Bucket)
    (hlb : lb (boto3_client "s3" creds) = Outcome.ok ⟨buckets⟩)
    (hbp : ∀ b ∈ buckets, plainStr b.Name = true) :
    ((aws_cli_command creds osEnviron run command).text = out ∧
      strHasSub out (aws_cli_command creds osEnviron run command).text ∧
      (¬ strStarts "Error" out →
        ¬ strStarts "Error" (aws_cli_command creds osEnviron run command).text)) ∧
    (containsInOrder (list_route53_hosted_zones route53cl lhz).text.data
        ((zones.map HostedZone.Name).map String.data) ∧
      ¬ strStarts "Error" (list_route53_hosted_zones route53cl lhz).text) ∧
    (strHasSub inst.InstanceType (get_ec2_instance_size ec2cl di ip).text ∧
      ¬ strStarts "Error" (get_ec2_instance_size ec2cl di ip).text) ∧
    (containsInOrder (get_user_permissions iamcl lap user).text.data
        ((pols.map AttachedPolicy.PolicyName).map String.data) ∧
      ¬ strStarts "Error" (get_user_permissions iamcl lap user).text) ∧
    (containsInOrder (list_s3_buckets creds lb).text.data
        ((buckets.map Bucket.Name).map String.data) ∧
      ¬ strStarts "Error" (list_s3_buckets creds lb).text) := by
  have hcli : (aws_cli_command creds osEnviron run command).text = out := by
    simp [aws_cli_command, hrun]
  have hr53 : (list_route53_hosted_zones route53cl lhz).text =
      "Route 53 Hosted Zones: " ++ pyListRepr (zones.map HostedZone.Name) := by
    simp [list_route53_hosted_zones, hlhz]
  have hec2 : (get_ec2_instance_size ec2cl di ip).text =
      ("EC2 instance " ++ ip) ++ " is of type: " ++ inst.InstanceType := by
    simp [get_ec2_instance_size, hdi]
  have hiam : (get_user_permissions iamcl lap user).text =
      (("IAM user '" ++ user) ++ "' has these policies: ") ++
        pyListRepr (pols.map AttachedPolicy.PolicyName) := by
    simp [get_user_permissions, hlap]
  have hs3 : (list_s3_buckets creds lb).text =
      "S3 Buckets: " ++ pyListRepr (buckets.map Bucket.Name) := by
    simp [list_s3_buckets, hlb]
  refine ⟨⟨hcli, ?_, ?_⟩, ⟨?_, ?_⟩, ⟨?_, ?_⟩, ⟨?_, ?_⟩, ⟨?_, ?_⟩⟩
  · rw [hcli]
    exact ⟨[], [], by simp⟩
  · rw [hcli]
    exact fun h => h
  · rw [hr53]
    exact pyListRepr_contains "Route 53 Hosted Zones: " (zones.map HostedZone.Name)
      (fun n hn => by
        obtain ⟨z, hz, rfl⟩ := List.mem_map.mp hn
        exact hzp z hz)
  · rw [hr53]
    unfold strStarts
    rw [strData_append]
    exact errNotStarts _ _ (by decide) (by decide)
  · rw [hec2]
    exact strHasSub_right _ _
  · rw [hec2]
    unfold strStarts
    have hdata : ((("EC2 instance " ++ ip) ++ " is of type: ") ++ inst.InstanceType).data =
        ("EC2 instance " : String).data ++
          (ip.data ++ ((" is of type: " : String).data ++ inst.InstanceType.data)) := by
      simp [strData_append, List.append_assoc]
    rw [hdata]
    exact errNotStarts _ _ (by decide) (by decide)
  · rw [hiam]
    exact pyListRepr_contains (("IAM user '" ++ user) ++ "' has these policies: ")
      (pols.map AttachedPolicy.PolicyName)
      (fun n hn => by
        obtain ⟨p, hp, rfl⟩ := List.mem_map.mp hn
        exact hpp p hp)
  · rw [hiam]
    unfold strStarts
    have hdata : ((("IAM user '" ++ user) ++ "' has these policies: ") ++
          pyListRepr (pols.map AttachedPolicy.PolicyName)).data =
        ("IAM user '" : String).data ++
          (user.data ++ (("' has these policies: " : String).data ++
            (pyListRepr (pols.map AttachedPolicy.PolicyName)).data)) := by
      simp [strData_append, List.append_assoc]
    rw [hdata]
    exact errNotStarts _ _ (by decide) (by decide)
  · rw [hs3]
    exact pyListRepr_contains "S3 Buckets: " (buckets.map Bucket.Name)
      (fun n hn => by
        obtain ⟨b, hb, rfl⟩ := List.mem_map.mp hn
        exact hbp b hb)
  · rw [hs3]
    unfold strStarts
    rw [strData_append]
    exact errNotStarts _ _ (by decide) (by decide)

/-- C5 witness: concrete success responses for the five tools. -/
theorem c5_witness :
    (aws_cli_command ⟨"ak", "sk", "eu"⟩ (fun _ => none)
        (fun _ _ => Outcome.ok ⟨0, "eu-west-1", ""⟩) "ec2 describe-regions").text =
      "eu-west-1" ∧
    containsInOrder
      (list_s3_buckets ⟨"ak", "sk", "eu"⟩
        (fun _ => Outcome.ok ⟨[⟨"alpha"⟩, ⟨"beta"⟩]⟩)).text.data
      ((["alpha", "beta"] : List String).map String.data) ∧
    ¬ strStarts "Error"
      (list_route53_hosted_zones (boto3_client "route53" ⟨"ak", "sk", "eu"⟩)
        (fun _ => Outcome.ok ⟨[⟨"example.com."⟩]⟩)).text := by
  have h := c5_success_contains_items ⟨"ak", "sk", "eu"⟩ (fun _ => none)
    "ec2 describe-regions"
    (boto3_client "route53" ⟨"ak", "sk", "eu"⟩)
    (boto3_client "ec2" ⟨"ak", "sk", "eu"⟩)
    (boto3_client "iam" ⟨"ak", "sk", "eu"⟩)
    (fun _ _ => Outcome.ok ⟨0, "eu-west-1", ""⟩)
    (fun _ => Outcome.ok ⟨[⟨"example.com."⟩]⟩)
    (fun _ _ => Outcome.ok ⟨[Reservation.mk [Ec2Instance.mk "t3.micro"]]⟩)
    (fun _ _ => Outcome.ok ⟨[⟨"AdministratorAccess"⟩]⟩)
    (fun _ => Outcome.ok ⟨[⟨"alpha"⟩, ⟨"beta"⟩]⟩)
    "10.0.1.112" "take-home-coding" "eu-west-1" ""
    rfl [⟨"example.com."⟩] rfl (by decide)
    ⟨"t3.micro"⟩ [] [] rfl
    [⟨"AdministratorAccess"⟩] rfl (by decide)
    [⟨"alpha"⟩, ⟨"beta"⟩] rfl (by decide)
  exact ⟨h.1.1, h.2.2.2.2.1, h.2.1.2⟩
